import Mathlib

/-!
Verification development for the kinect-macos-sdk repository.

The repository ships two headers, `src/src/kinect_interface.h` and
`src/src/algorithm_interface.h`.  The implementation file of
`KinectInterface` is not part of the repository snapshot, so the frame
relay, frame buffer slot and capture session behavior described by the
specification are modelled here from the specification's own words
(definitions whose doc comment starts `Modelled from the spec:`); the
declared C++ surface (member fields, method signatures, default method
bodies of `AlgorithmInterface`) is embedded directly from the headers.
-/

namespace KinectSdk

/-- Stream kinds: the two independent frame feeds from the sensor
(depth and color), matching the pair of buffers `depth_buffer` /
`rgb_buffer` declared in `kinect_interface.h`. -/
inductive StreamKind
  | Depth
  | Color
deriving DecidableEq, Repr

/-- Sample stride of a frame buffer slot: `Depth16` samples occupy two
bytes (`uint16_t` depth values), `Rgb24` samples three bytes (24-bit
packed RGB), as declared by the buffer types in `kinect_interface.h`. -/
inductive SampleStride
  | Depth16
  | Rgb24
deriving DecidableEq, Repr

/-- Bytes per sample for each stride. -/
def strideBytes : SampleStride → Nat
  | .Depth16 => 2
  | .Rgb24 => 3

/-- The failure taxonomy of the specification (section 7). -/
inductive FailureKind
  | DeviceNotFound
  | UnsupportedFormat
  | ShapeMismatch
  | NotYetAvailable
  | InvalidParameter
  | SinkFailure
deriving DecidableEq, Repr

/-- Modelled from the spec: a Frame Buffer Slot (section 3) — a typed
fixed-size sample region with a generation counter and the timestamp of
the last write.  The repository's implementation file managing
`depth_buffer` / `rgb_buffer` is not under `src/`; fields follow the
specification's attribute list.  `data` is the byte content of the
buffer. -/
structure Slot where
  width : Nat
  height : Nat
  stride : SampleStride
  data : List Nat
  generation : Nat
  lastWriteTimestamp : Nat
deriving DecidableEq, Repr

/-- The byte size a payload must have to match a slot's declared shape. -/
def Slot.shapeBytes (s : Slot) : Nat :=
  s.width * s.height * strideBytes s.stride

/-- Modelled from the spec: `write(payload, width, height)` replaces the
full contents and increments `generation`; fails with `ShapeMismatch` if
the payload size does not match the slot's declared width/height/stride
(section 4.1).  The write also records the frame's capture timestamp. -/
def Slot.write (s : Slot) (payload : List Nat) (w h ts : Nat) :
    Except FailureKind Slot :=
  if w = s.width ∧ h = s.height ∧ payload.length = s.shapeBytes then
    .ok { s with
      data := payload
      generation := s.generation + 1
      lastWriteTimestamp := ts }
  else
    .error .ShapeMismatch

/-- A snapshot returned to a consumer: the payload bytes plus the
generation and timestamp they belong to. -/
structure Snapshot where
  data : List Nat
  generation : Nat
  timestamp : Nat
deriving DecidableEq, Repr

/-- Modelled from the spec: `readSnapshot()` returns a copy of the
current payload plus its `generation` and `timestamp` (section 4.1). -/
def Slot.readSnapshot (s : Slot) : Snapshot :=
  { data := s.data, generation := s.generation, timestamp := s.lastWriteTimestamp }

/-- Modelled from the spec: `peekGeneration()` returns the current
generation without copying (section 4.1). -/
def Slot.peekGeneration (s : Slot) : Nat :=
  s.generation

/-- Modelled from the spec: a freshly allocated slot for a negotiated
(width, height, stride); no write has occurred yet, so its generation
is 0 (section 3: allocated when dimensions become known). -/
def Slot.fresh (w h : Nat) (st : SampleStride) : Slot :=
  { width := w
    height := h
    stride := st
    data := List.replicate (w * h * strideBytes st) 0
    generation := 0
    lastWriteTimestamp := 0 }

/-- Modelled from the spec: the Capture Session state enumeration
(section 3): `Uninit` and `Ready` model the spec's `Uninitialized` and
`Initialized` states; `Capturing`, `Stopped` and the terminal `ShutDown`
are as named there.  The implementation file of `KinectInterface` is not
under `src/`. -/
inductive SessionState
  | Uninit
  | Ready
  | Capturing
  | Stopped
  | ShutDown
deriving DecidableEq, Repr

/-- Modelled from the spec: the Capture Session's owned resources
(section 3): its state, whether the device handle is currently held, and
whether the worker thread is running. -/
structure CaptureSession where
  state : SessionState
  deviceOpen : Bool
  workerRunning : Bool
deriving DecidableEq, Repr

/-- Modelled from the spec: `stopCapture()` sets the stop flag and joins
the worker, transitioning `Capturing → Stopped` (section 4.3); from any
other state there is no worker to stop and the session is unchanged. -/
def CaptureSession.stopCapture (c : CaptureSession) : CaptureSession :=
  if c.state = .Capturing then
    { c with state := .Stopped, workerRunning := false }
  else
    c

/-- Modelled from the spec: `shutdown()` forces a stop if still
capturing, then releases the device handle and enters the terminal
`ShutDown` state (sections 3 and 4.3). -/
def CaptureSession.shutdown (c : CaptureSession) : CaptureSession :=
  let c1 := c.stopCapture
  { c1 with state := .ShutDown, deviceOpen := false }

/-- Modelled from the spec: the documented valid tilt range is
[-30, 30] degrees (section 4.3 and the header comment of
`setTiltAngle`). -/
def tiltMinDeg : Rat := -30

/-- Upper end of the documented tilt range. -/
def tiltMaxDeg : Rat := 30

/-- Modelled from the spec: `setTiltAngle` validates the angle against
the documented [-30, 30] range; out-of-range input fails with
`InvalidParameter` rather than silently clamping and never reaches the
device layer (section 4.3).  The body of `setTiltAngle` is not under
`src/`.  `deviceResult` is the outcome the device layer would return if
invoked; the second component counts how many device-layer calls were
made. -/
def setTiltAngle (deviceResult : Except FailureKind Unit) (angle : Rat) :
    Except FailureKind Unit × Nat :=
  if angle < tiltMinDeg ∨ tiltMaxDeg < angle then
    (.error .InvalidParameter, 0)
  else
    (deviceResult, 1)

/-- Modelled from the spec: the Frame Relay's registration and slot
state (sections 3 and 4.2) as the specification describes it — one slot
per stream kind, an optional sink per stream and one synchronized sink.
Sinks are identified abstractly by a number.  The relay implementation
is not under `src/`. -/
structure FrameRelay where
  depthSlot : Slot
  colorSlot : Slot
  depthSink : Option Nat
  colorSink : Option Nat
  syncSink : Option Nat
deriving DecidableEq, Repr

/-- The slot of the requested stream kind. -/
def FrameRelay.slot (r : FrameRelay) : StreamKind → Slot
  | .Depth => r.depthSlot
  | .Color => r.colorSlot

/-- Replace the slot of one stream kind. -/
def FrameRelay.setSlot (r : FrameRelay) : StreamKind → Slot → FrameRelay
  | .Depth, s => { r with depthSlot := s }
  | .Color, s => { r with colorSlot := s }

/-- Modelled from the spec: `fetch(streamKind)` returns `readSnapshot()`
of the requested slot and fails with `NotYetAvailable` if no write has
ever occurred, i.e. the slot's generation is 0 (section 4.2). -/
def FrameRelay.fetch (r : FrameRelay) (k : StreamKind) :
    Except FailureKind Snapshot :=
  let s := r.slot k
  if s.generation = 0 then .error .NotYetAvailable
  else .ok s.readSnapshot

/-- A sink invocation performed during a publish: which sink fired and
the snapshot it was handed. -/
structure SinkEvent where
  sink : Nat
  snap : Snapshot
deriving DecidableEq, Repr

/-- Modelled from the spec: `publish(streamKind, payload, width, height,
timestamp)` acquires the slot's guard, performs `write`, invokes the
stream's sink (if any) with a snapshot, and releases the guard
(section 4.2).  The guard itself is studied by the interleaved model
below; here publish is the atomic state transformation it protects,
returning the updated relay together with the sink invocations made. -/
def FrameRelay.publish (r : FrameRelay) (k : StreamKind)
    (payload : List Nat) (w h ts : Nat) :
    Except FailureKind (FrameRelay × List SinkEvent) :=
  match (r.slot k).write payload w h ts with
  | .error e => .error e
  | .ok s' =>
    let events :=
      match (match k with | .Depth => r.depthSink | .Color => r.colorSink) with
      | none => []
      | some cb => [{ sink := cb, snap := s'.readSnapshot }]
    .ok (r.setSlot k s', events)

/-- The C++ return types that appear on the public surface declared in
`src/src/kinect_interface.h`. -/
inductive CReturnType
  | boolT
  | voidT
  | constU16Ptr
  | constU8Ptr
deriving DecidableEq, Repr

/-- The public methods declared in `src/src/kinect_interface.h` that
form the outbound library surface (constructor, destructor and the
dimension/status queries aside).  `initDevice` names the header's
`initialize()` method. -/
inductive ApiCall
  | initDevice
  | startCapture
  | stopCapture
  | shutdownCall
  | setLED
  | setTiltAngleCall
  | getDepthData
  | getRGBData
deriving DecidableEq, Repr

/-- The return type each surface method declares in
`src/src/kinect_interface.h`: `bool initialize()`, `bool
startCapture()`, `void stopCapture()`, `void shutdown()`, `void
setLED(freenect_led_options)`, `bool setTiltAngle(double)`, `const
uint16_t* getDepthData()`, `const uint8_t* getRGBData()`. -/
def declaredReturn : ApiCall → CReturnType
  | .initDevice => .boolT
  | .startCapture => .boolT
  | .stopCapture => .voidT
  | .shutdownCall => .voidT
  | .setLED => .voidT
  | .setTiltAngleCall => .boolT
  | .getDepthData => .constU16Ptr
  | .getRGBData => .constU8Ptr

/-- Components a returned value can carry back to the caller. -/
inductive RetComponent
  | payloadBytes
  | generationField
  | timestampField
  | boolFlag
deriving DecidableEq, Repr

/-- What each declared C++ return type aggregates: a `bool` is a bare
flag, `void` carries nothing, and the two `const` pointer returns hand
back sample bytes only — none of the header's return types is a record
that also carries a generation counter or a timestamp. -/
def retComponents : CReturnType → List RetComponent
  | .boolT => [.boolFlag]
  | .voidT => []
  | .constU16Ptr => [.payloadBytes]
  | .constU8Ptr => [.payloadBytes]

/-- How many distinct outcome classes a declared return type can signal
to the caller: `void` signals nothing (one class), a `bool` two
(true/false), a nullable pointer two (null / data present). -/
def outcomeClasses : CReturnType → Nat
  | .boolT => 2
  | .voidT => 1
  | .constU16Ptr => 2
  | .constU8Ptr => 2

/-- Follows the spec's words (for comparison with the declared
surface): the failure kinds the specification names for each call —
`initialize()` fails with `DeviceNotFound` or `UnsupportedFormat`,
`fetch` with `NotYetAvailable`, `setTiltAngle` with `InvalidParameter`
(sections 4.3, 4.2 and 7); a call whose spec-side description names no
failure kind maps to the empty list. -/
def specFailureKinds : ApiCall → List FailureKind
  | .initDevice => [.DeviceNotFound, .UnsupportedFormat]
  | .startCapture => []
  | .stopCapture => []
  | .shutdownCall => []
  | .setLED => []
  | .setTiltAngleCall => [.InvalidParameter]
  | .getDepthData => [.NotYetAvailable]
  | .getRGBData => [.NotYetAvailable]

/-- Follows the spec's words (for comparison with the declared
surface): a discriminated result for a call must distinguish one
success class plus one class per named failure kind. -/
def specRequiredOutcomeClasses (c : ApiCall) : Nat :=
  1 + (specFailureKinds c).length

/-- The virtual methods of `AlgorithmInterface` declared in
`src/src/algorithm_interface.h` (the virtual destructor aside). -/
inductive AlgMethod
  | onInit
  | onShutdown
  | processDepthData
  | processRGBData
  | processSynchronizedData
  | getAlgorithmName
  | getVersion
deriving DecidableEq, Repr

/-- The kinds of default bodies found in `algorithm_interface.h`:
an empty body, the body that delegates to `processDepthData` and then
`processRGBData`, or a body returning a constant string. -/
inductive DefaultBodyKind
  | emptyBody
  | delegatesToBoth
  | returnsConstStr (s : String)
deriving DecidableEq, Repr

/-- The default body each virtual method carries in
`src/src/algorithm_interface.h`, or `none` where the method is declared
pure virtual (`= 0`): `onInitialize` (modelled as `onInit`) and
`onShutdown` have empty bodies, `processDepthData` and `processRGBData`
are pure virtual, `processSynchronizedData` calls the two individual
processors, `getAlgorithmName` returns `"BaseAlgorithm"` and
`getVersion` returns `"1.0.0"`. -/
def defaultBody : AlgMethod → Option DefaultBodyKind
  | .onInit => some .emptyBody
  | .onShutdown => some .emptyBody
  | .processDepthData => none
  | .processRGBData => none
  | .processSynchronizedData => some .delegatesToBoth
  | .getAlgorithmName => some (.returnsConstStr "BaseAlgorithm")
  | .getVersion => some (.returnsConstStr "1.0.0")

/-- A method has a default no-op body when it has a default body at all
and that body performs no work (an empty body counts; returning a
constant string performs no work either). -/
def hasDefaultNoOpBody (m : AlgMethod) : Bool :=
  match defaultBody m with
  | some .emptyBody => true
  | some (.returnsConstStr _) => true
  | some .delegatesToBoth => true
  | none => false

/-- Observable effects of an algorithm object's data processors: a call
to the depth processor or to the RGB processor with the arguments it
received. -/
inductive AlgEvent
  | depthCall (depth : List Nat) (width height : Int)
  | rgbCall (rgb : List Nat) (width height : Int)
deriving DecidableEq, Repr

/-- A subclass's overriding implementations of the two pure-virtual
processors, modelled by the state transformation and event trace each
produces.  `σ` is the subclass's own state. -/
structure AlgorithmImpl (σ : Type) where
  processDepthData : List Nat → Int → Int → σ → σ × List AlgEvent
  processRGBData : List Nat → Int → Int → σ → σ × List AlgEvent

/-- The default body of `processSynchronizedData` translated from
`src/src/algorithm_interface.h` lines 74–82: it calls
`processDepthData(depth, width, height)` and then
`processRGBData(rgb, width, height)` on the same object. -/
def defaultProcessSynchronizedData (a : AlgorithmImpl σ)
    (depth rgb : List Nat) (w h : Int) (st : σ) : σ × List AlgEvent :=
  let r1 := a.processDepthData depth w h st
  let r2 := a.processRGBData rgb w h r1.1
  (r2.1, r1.2 ++ r2.2)

/-- An algorithm object: its overriding processors plus an optional
override of the virtual `processSynchronizedData`; when the override is
absent, a call dispatches to the default body from the header. -/
structure AlgObject (σ : Type) where
  impl : AlgorithmImpl σ
  syncOverride : Option (List Nat → List Nat → Int → Int → σ → σ × List AlgEvent)

/-- Virtual dispatch of `processSynchronizedData`: the override when
present, otherwise the header's default body. -/
def AlgObject.processSynchronizedData (o : AlgObject σ)
    (depth rgb : List Nat) (w h : Int) (st : σ) : σ × List AlgEvent :=
  match o.syncOverride with
  | some f => f depth rgb w h st
  | none => defaultProcessSynchronizedData o.impl depth rgb w h st

/-- Follows the claim's words (for comparison with the translated
default body): calling `processDepthData(depth, width, height)` followed
by `processRGBData(rgb, width, height)`, the same width and height
forwarded to both calls. -/
def depthThenRgbSameShape (a : AlgorithmImpl σ)
    (depth rgb : List Nat) (w h : Int) (st : σ) : σ × List AlgEvent :=
  let afterDepth := a.processDepthData depth w h st
  let afterRgb := a.processRGBData rgb w h afterDepth.1
  (afterRgb.1, afterDepth.2 ++ afterRgb.2)

/-- The registration and buffer state declared in
`src/src/kinect_interface.h`: the class holds one slot per stream and a
single `AlgorithmInterface* algorithm` member (line 39) — one
registration point serving depth processing, RGB processing and
synchronized processing alike.  Algorithm objects are identified
abstractly by a number; `none` is a null pointer. -/
structure KinectState where
  depthSlot : Slot
  colorSlot : Slot
  algorithm : Option Nat
deriving DecidableEq, Repr

/-- Modelled from the spec for the missing method body: `setAlgorithm`
installs the given algorithm, replacing any existing registration
("replacing an existing sink is allowed and takes effect on the next
write", section 4.2); the header declares no other effect. -/
def KinectState.setAlgorithm (k : KinectState) (a : Option Nat) : KinectState :=
  { k with algorithm := a }

/-- The handler that will process frames of a given stream kind: the
header declares a single `algorithm` member, so every stream kind
dispatches to that one registration. -/
def KinectState.sinkFor (k : KinectState) (_ : StreamKind) : Option Nat :=
  k.algorithm

/-- The handler that will receive synchronized (depth+RGB) frames: the
same single `algorithm` member, through its
`processSynchronizedData` method. -/
def KinectState.syncSinkOf (k : KinectState) : Option Nat :=
  k.algorithm

/-- A thread that can hold a slot's guard: the single writer or one of
the reader threads, identified by index. -/
inductive Owner
  | writer
  | reader (i : Nat)
deriving DecidableEq, Repr

/-- Program counter of the writer thread's publish loop: between frames,
holding the guard before the payload bytes are in place, or holding the
guard with the bytes written but the generation not yet bumped. -/
inductive WriterPC
  | idle
  | locked
  | dataWritten
deriving DecidableEq, Repr

/-- Program counter of a reader thread's fetch: between calls, holding
the guard, or finished with a snapshot recorded. -/
inductive ReaderPC
  | idle
  | locked
  | done
deriving DecidableEq, Repr

/-- A reader thread: its program counter and the history of snapshots
its completed fetches returned. -/
structure ReaderState where
  pc : ReaderPC
  snaps : List Snapshot
deriving DecidableEq, Repr

/-- Modelled from the spec: the shared state of one slot's relay under
preemptive interleaving (section 5) — the slot, the per-slot exclusive
guard (`none` when free), the writer's program counter and the reader
threads. -/
structure RelaySys where
  slot : Slot
  lock : Option Owner
  wpc : WriterPC
  readers : List ReaderState
deriving DecidableEq, Repr

/-- Modelled from the spec: the interleaved small-step semantics of one
writer publishing in a loop and N readers fetching (sections 4.2 and 5).
`pf g` is the full payload of the frame published as generation `g` and
`tf g` its capture timestamp.  The writer's critical section is
deliberately non-atomic — it installs the payload bytes in one step and
bumps the generation in a later step — so a torn frame is observable
exactly when the guard discipline is broken.  A guard acquisition
requires the guard to be free; readers copy the slot's snapshot in one
step while holding the guard and release it. -/
inductive RelayStep (pf : Nat → List Nat) (tf : Nat → Nat) :
    RelaySys → RelaySys → Prop
  | wAcquire (s : RelaySys) (hl : s.lock = none) (hw : s.wpc = .idle) :
      RelayStep pf tf s { s with lock := some .writer, wpc := .locked }
  | wData (s : RelaySys) (hw : s.wpc = .locked) :
      RelayStep pf tf s
        { s with
          slot := { s.slot with data := pf (s.slot.generation + 1) }
          wpc := .dataWritten }
  | wBumpRelease (s : RelaySys) (hw : s.wpc = .dataWritten) :
      RelayStep pf tf s
        { s with
          slot := { s.slot with
            generation := s.slot.generation + 1
            lastWriteTimestamp := tf (s.slot.generation + 1) }
          lock := none
          wpc := .idle }
  | rAcquire (s : RelaySys) (i : Nat) (r : ReaderState)
      (hr : s.readers[i]? = some r) (hpc : r.pc = .idle) (hl : s.lock = none) :
      RelayStep pf tf s
        { s with
          lock := some (.reader i)
          readers := s.readers.set i { r with pc := .locked } }
  | rReadRelease (s : RelaySys) (i : Nat) (r : ReaderState)
      (hr : s.readers[i]? = some r) (hpc : r.pc = .locked) :
      RelayStep pf tf s
        { s with
          lock := none
          readers := s.readers.set i
            { pc := .done, snaps := s.slot.readSnapshot :: r.snaps } }
  | rRestart (s : RelaySys) (i : Nat) (r : ReaderState)
      (hr : s.readers[i]? = some r) (hpc : r.pc = .done) :
      RelayStep pf tf s
        { s with readers := s.readers.set i { r with pc := .idle } }

/-- Modelled from the spec: the initial system — a fresh slot at
generation 0 holding the initial content `pf 0`, the guard free, the
writer between frames and `n` readers between calls. -/
def initSys (pf : Nat → List Nat) (w h : Nat) (st : SampleStride) (n : Nat) :
    RelaySys :=
  { slot :=
      { width := w
        height := h
        stride := st
        data := pf 0
        generation := 0
        lastWriteTimestamp := 0 }
    lock := none
    wpc := .idle
    readers := List.replicate n { pc := .idle, snaps := [] } }

/-- The inductive invariant of the relay system: guard ownership is
coupled to the program counters, the slot's content is the full frame of
its generation except in the writer's torn window (where it is already
the next frame's content), and every recorded snapshot is the full frame
of its generation. -/
def RelayInv (pf : Nat → List Nat) (s : RelaySys) : Prop :=
  (s.wpc ≠ .idle → s.lock = some .writer) ∧
  (s.wpc = .dataWritten → s.slot.data = pf (s.slot.generation + 1)) ∧
  (s.wpc ≠ .dataWritten → s.slot.data = pf s.slot.generation) ∧
  (∀ (i : Nat) (r : ReaderState),
    s.readers[i]? = some r → r.pc = .locked → s.lock = some (.reader i)) ∧
  (∀ (i : Nat) (r : ReaderState),
    s.readers[i]? = some r → ∀ sn ∈ r.snaps, sn.data = pf sn.generation)

theorem Slot.write_ok_elim (s s' : Slot) (p : List Nat) (w h ts : Nat)
    (hok : s.write p w h ts = .ok s') :
    s' = { s with data := p, generation := s.generation + 1, lastWriteTimestamp := ts } := by
  unfold Slot.write at hok
  split at hok
  · exact (Except.ok.inj hok).symm
  · exact nomatch hok

theorem Slot.write_succeeds (s : Slot) (p : List Nat) (w h ts : Nat)
    (hw : w = s.width) (hh : h = s.height) (hl : p.length = s.shapeBytes) :
    s.write p w h ts =
      .ok { s with data := p, generation := s.generation + 1, lastWriteTimestamp := ts } := by
  unfold Slot.write
  rw [if_pos ⟨hw, hh, hl⟩]

theorem FrameRelay.slot_setSlot (r : FrameRelay) (k : StreamKind) (s : Slot) :
    (r.setSlot k s).slot k = s := by
  cases k <;> rfl

theorem FrameRelay.publish_ok_slot (r : FrameRelay) (k : StreamKind) (p : List Nat)
    (w h ts : Nat) (r' : FrameRelay) (evs : List SinkEvent)
    (hok : r.publish k p w h ts = .ok (r', evs)) :
    r'.slot k =
      { r.slot k with
        data := p
        generation := (r.slot k).generation + 1
        lastWriteTimestamp := ts } := by
  unfold FrameRelay.publish at hok
  cases hwr : (r.slot k).write p w h ts with
  | error e =>
    rw [hwr] at hok
    exact nomatch hok
  | ok s2 =>
    rw [hwr] at hok
    have hpair := Except.ok.inj hok
    have h1 : r.setSlot k s2 = r' := congrArg Prod.fst hpair
    rw [← h1, FrameRelay.slot_setSlot]
    exact Slot.write_ok_elim _ _ _ _ _ _ hwr

/-- C3: for every stream kind, `fetch` on a slot whose generation is 0
(no write has ever occurred) fails with the distinct error
`NotYetAvailable`, and after exactly one successful `publish` to that
slot `fetch` succeeds, returning the slot's snapshot. -/
theorem fetch_notYetAvailable_then_ok (r : FrameRelay) (k : StreamKind) :
    ((r.slot k).generation = 0 → r.fetch k = .error .NotYetAvailable) ∧
    (∀ (p : List Nat) (w h ts : Nat) (r' : FrameRelay) (evs : List SinkEvent),
      r.publish k p w h ts = .ok (r', evs) →
      r'.fetch k = .ok ((r'.slot k).readSnapshot)) := by
  constructor
  · intro h0
    unfold FrameRelay.fetch
    rw [if_pos h0]
  · intro p w h ts r' evs hok
    have hslot := FrameRelay.publish_ok_slot r k p w h ts r' evs hok
    unfold FrameRelay.fetch
    rw [if_neg]
    rw [hslot]
    exact Nat.succ_ne_zero _

/-- C3 witness: on a relay with two fresh slots, `fetch Depth` fails
with `NotYetAvailable`, and after one successful publish of a 1×1 depth
frame it returns that frame's snapshot. -/
theorem fetch_notYetAvailable_then_ok_witness :
    (FrameRelay.fetch ⟨Slot.fresh 1 1 .Depth16, Slot.fresh 1 1 .Rgb24, none, none, none⟩ .Depth
      = .error .NotYetAvailable) ∧
    (FrameRelay.fetch
        ⟨⟨1, 1, .Depth16, [5, 6], 1, 9⟩, Slot.fresh 1 1 .Rgb24, none, none, none⟩ .Depth
      = .ok (Slot.readSnapshot ⟨1, 1, .Depth16, [5, 6], 1, 9⟩)) :=
  ⟨(fetch_notYetAvailable_then_ok
      ⟨Slot.fresh 1 1 .Depth16, Slot.fresh 1 1 .Rgb24, none, none, none⟩ .Depth).1 rfl,
    (fetch_notYetAvailable_then_ok
      ⟨Slot.fresh 1 1 .Depth16, Slot.fresh 1 1 .Rgb24, none, none, none⟩ .Depth).2
      [5, 6] 1 1 9
      ⟨⟨1, 1, .Depth16, [5, 6], 1, 9⟩, Slot.fresh 1 1 .Rgb24, none, none, none⟩ [] rfl⟩

/-- C4: `setTiltAngle` with an angle outside the documented [-30, 30]
degree range fails with `InvalidParameter` and performs no device-layer
call; with an angle inside the range it performs exactly one
device-layer call and returns the device layer's outcome (success when
the device accepts). -/
theorem setTiltAngle_range_check (d : Except FailureKind Unit) (a : Rat) :
    ((a < tiltMinDeg ∨ tiltMaxDeg < a) →
      setTiltAngle d a = (.error .InvalidParameter, 0)) ∧
    (tiltMinDeg ≤ a → a ≤ tiltMaxDeg → setTiltAngle d a = (d, 1)) := by
  constructor
  · intro hout
    unfold setTiltAngle
    rw [if_pos hout]
  · intro hlo hhi
    unfold setTiltAngle
    rw [if_neg]
    rintro (h | h)
    · exact absurd hlo (not_le.mpr h)
    · exact absurd hhi (not_le.mpr h)

/-- C4 witness: 31 degrees is rejected with `InvalidParameter` and no
device call; 15 degrees reaches the device layer once and succeeds. -/
theorem setTiltAngle_range_check_witness :
    setTiltAngle (.ok ()) 31 = (.error .InvalidParameter, 0) ∧
    setTiltAngle (.ok ()) 15 = (.ok (), 1) :=
  ⟨(setTiltAngle_range_check (.ok ()) 31).1 (Or.inr (by decide)),
    (setTiltAngle_range_check (.ok ()) 15).2 (by decide) (by decide)⟩

/-- C5: a `write` whose payload matches the slot's declared shape
succeeds, and `readSnapshot` after it returns exactly the written bytes
with a generation exactly one above the prior value; every successful
write strictly increases the generation, so the counter is monotone
across successful writes. -/
theorem write_then_readSnapshot (s s' : Slot) (p : List Nat) (w h ts : Nat) :
    (s.write p w h ts = .ok s' →
      s'.readSnapshot.data = p ∧
      s'.readSnapshot.generation = s.generation + 1 ∧
      s'.readSnapshot.timestamp = ts ∧
      s.generation < s'.generation) ∧
    (w = s.width → h = s.height → p.length = s.shapeBytes →
      s.write p w h ts =
        .ok { s with data := p, generation := s.generation + 1, lastWriteTimestamp := ts }) := by
  constructor
  · intro hok
    have hs := Slot.write_ok_elim s s' p w h ts hok
    subst hs
    exact ⟨rfl, rfl, rfl, Nat.lt_succ_self _⟩
  · exact Slot.write_succeeds s p w h ts

/-- C5 witness: writing the 2-byte payload [5, 6] into a fresh 1×1 depth
slot succeeds and reading back returns those bytes at generation 1. -/
theorem write_then_readSnapshot_witness :
    ((Slot.fresh 1 1 .Depth16).write [5, 6] 1 1 7 =
      .ok ⟨1, 1, .Depth16, [5, 6], 1, 7⟩) ∧
    (Slot.readSnapshot ⟨1, 1, .Depth16, [5, 6], 1, 7⟩).data = [5, 6] ∧
    (Slot.readSnapshot ⟨1, 1, .Depth16, [5, 6], 1, 7⟩).generation = 1 ∧
    (Slot.readSnapshot ⟨1, 1, .Depth16, [5, 6], 1, 7⟩).timestamp = 7 ∧
    0 < 1 :=
  ⟨(write_then_readSnapshot (Slot.fresh 1 1 .Depth16) ⟨1, 1, .Depth16, [5, 6], 1, 7⟩
      [5, 6] 1 1 7).2 rfl rfl rfl,
    (write_then_readSnapshot (Slot.fresh 1 1 .Depth16) ⟨1, 1, .Depth16, [5, 6], 1, 7⟩
      [5, 6] 1 1 7).1 rfl⟩

/-- C6: `shutdown` always lands in the terminal `ShutDown` state with
the device handle released, forces a stop of the worker when the session
was still capturing, and is idempotent — `shutdown` composed with itself
equals a single `shutdown`. -/
theorem shutdown_idempotent (c : CaptureSession) :
    c.shutdown.state = .ShutDown ∧
    c.shutdown.deviceOpen = false ∧
    (c.state = .Capturing → c.shutdown.workerRunning = false) ∧
    c.shutdown.shutdown = c.shutdown := by
  unfold CaptureSession.shutdown CaptureSession.stopCapture
  by_cases hc : c.state = .Capturing <;> simp [hc]

/-- C6 witness: shutting down a capturing session with an open device
stops the worker, releases the device, lands in `ShutDown`, and a second
`shutdown` changes nothing. -/
theorem shutdown_idempotent_witness :
    (CaptureSession.shutdown ⟨.Capturing, true, true⟩).state = .ShutDown ∧
    (CaptureSession.shutdown ⟨.Capturing, true, true⟩).deviceOpen = false ∧
    (CaptureSession.shutdown ⟨.Capturing, true, true⟩).workerRunning = false ∧
    (CaptureSession.shutdown ⟨.Capturing, true, true⟩).shutdown =
      CaptureSession.shutdown ⟨.Capturing, true, true⟩ :=
  ⟨(shutdown_idempotent ⟨.Capturing, true, true⟩).1,
    (shutdown_idempotent ⟨.Capturing, true, true⟩).2.1,
    (shutdown_idempotent ⟨.Capturing, true, true⟩).2.2.1 rfl,
    (shutdown_idempotent ⟨.Capturing, true, true⟩).2.2.2⟩

/-- C7 counterexample: `processDepthData` is declared pure virtual
(`= 0`) in `src/src/algorithm_interface.h` line 51, so it has no default
body at all — the claim that every method of the interface has a default
no-op body fails at this concrete method (and the class is abstract, so
it cannot be instantiated without overriding it). -/
theorem not_every_method_has_default_body :
    hasDefaultNoOpBody .processDepthData = false := by
  decide

/-- C7 amended: the lifecycle hooks `onInitialize` (modelled as
`onInit`) and `onShutdown` carry default empty bodies,
`processSynchronizedData`, `getAlgorithmName` and `getVersion` carry
default bodies, but `processDepthData` and `processRGBData` are pure
virtual, so a subclass must implement exactly those two. -/
theorem default_bodies_except_pure_virtual :
    hasDefaultNoOpBody .onInit = true ∧
    hasDefaultNoOpBody .onShutdown = true ∧
    hasDefaultNoOpBody .processSynchronizedData = true ∧
    hasDefaultNoOpBody .getAlgorithmName = true ∧
    hasDefaultNoOpBody .getVersion = true ∧
    defaultBody .onInit = some .emptyBody ∧
    defaultBody .onShutdown = some .emptyBody ∧
    defaultBody .processDepthData = none ∧
    defaultBody .processRGBData = none := by
  decide

/-- C10: for every algorithm object that does not override
`processSynchronizedData`, a call to `processSynchronizedData(depth,
rgb, width, height)` is exactly the call
`processDepthData(depth, width, height)` followed by
`processRGBData(rgb, width, height)`, the same width and height
forwarded to both. -/
theorem defaultSync_is_depth_then_rgb {σ : Type} (o : AlgObject σ)
    (hov : o.syncOverride = none) (depth rgb : List Nat) (w h : Int) (st : σ) :
    o.processSynchronizedData depth rgb w h st =
      depthThenRgbSameShape o.impl depth rgb w h st := by
  unfold AlgObject.processSynchronizedData
  rw [hov]
  rfl

/-- A sample pair of overriding processors used to witness the
synchronized-data default: each records its call and touches the
state. -/
def sampleAlgImpl : AlgorithmImpl Nat :=
  { processDepthData := fun d wi he st => (st + 1, [.depthCall d wi he])
    processRGBData := fun rg wi he st => (st + 10, [.rgbCall rg wi he]) }

/-- A sample algorithm object that leaves `processSynchronizedData`
unoverridden. -/
def sampleAlgObject : AlgObject Nat :=
  { impl := sampleAlgImpl, syncOverride := none }

/-- C10 witness: on the sample object, the default synchronized call
with a 1-sample depth frame and a 1-sample RGB frame at 2×2 equals the
depth-then-RGB sequence with the same width and height. -/
theorem defaultSync_is_depth_then_rgb_witness :
    sampleAlgObject.processSynchronizedData [3] [4] 2 2 0 =
      depthThenRgbSameShape sampleAlgImpl [3] [4] 2 2 0 :=
  defaultSync_is_depth_then_rgb sampleAlgObject rfl [3] [4] 2 2 0

/-- A sample registration state used by the C8 counterexample: both
slots fresh, algorithm object 0 registered. -/
def sampleKinectState : KinectState :=
  { depthSlot := Slot.fresh 1 1 .Depth16
    colorSlot := Slot.fresh 1 1 .Rgb24
    algorithm := some 0 }

/-- C8 counterexample: the header declares a single
`AlgorithmInterface* algorithm` member, so the one registration call
(`setAlgorithm`, the code's counterpart of `registerSink`) serves both
stream kinds; installing a new algorithm — in particular when the intent
is to replace the depth handler — also replaces the handler the Color
stream will use, contradicting the claim that the other stream's sink is
left unchanged. -/
theorem setAlgorithm_changes_other_stream :
    ¬ ((sampleKinectState.setAlgorithm (some 1)).sinkFor .Color =
        sampleKinectState.sinkFor .Color) := by
  decide

/-- C8 amended: the code keeps zero-or-one registered algorithm overall,
not per stream: `setAlgorithm` replaces the handler used by both stream
kinds and by synchronized processing at once, takes effect on the next
write, and has no side effect on the slots' contents or generations. -/
theorem setAlgorithm_replaces_all_streams (k : KinectState) (a : Option Nat) :
    (k.setAlgorithm a).sinkFor .Depth = a ∧
    (k.setAlgorithm a).sinkFor .Color = a ∧
    (k.setAlgorithm a).syncSinkOf = a ∧
    (k.setAlgorithm a).depthSlot = k.depthSlot ∧
    (k.setAlgorithm a).colorSlot = k.colorSlot :=
  ⟨rfl, rfl, rfl, rfl, rfl⟩

/-- C9 counterexample: the specification names two distinct failure
kinds for `initialize()` (`DeviceNotFound`, `UnsupportedFormat`), so a
discriminated result for it must distinguish at least three outcome
classes, but the header declares `bool initialize()`, which can signal
only two — the declared surface does not report outcomes as a
discriminated result over the named failure kinds. -/
theorem bool_cannot_discriminate_failures :
    outcomeClasses (declaredReturn .initDevice) <
      specRequiredOutcomeClasses .initDevice := by
  decide

/-- C9 amended: every call of the declared surface reports at most a
bare success/failure distinction — `initialize`, `startCapture` and
`setTiltAngle` return a plain `bool`, `stopCapture`, `shutdown` and
`setLED` return `void` and report nothing, and the accessors return a
nullable pointer; no call's declared return discriminates among the
named failure kinds. -/
theorem declared_surface_reports_at_most_two_outcomes :
    ∀ c : ApiCall, outcomeClasses (declaredReturn c) ≤ 2 := by
  intro c
  cases c <;> decide

/-- C1 counterexample: the header declares
`const uint16_t* getDepthData()` — a bare sample pointer whose returned
value carries no generation counter and no timestamp, so the claim that
the latest-frame accessors return the payload together with its
generation and timestamp fails at `getDepthData` (and likewise the
analogous `getRGBData`). -/
theorem getDepthData_returns_no_generation :
    RetComponent.generationField ∉ retComponents (declaredReturn .getDepthData) := by
  decide

/-- C1 amended: the spec-level `readSnapshot`/`fetch` (modelled from the
spec) returns a copy of the current payload value together with its
generation and timestamp, and a snapshot taken before a further
successful write keeps the old bytes while the slot moves on to the new
payload; the header's accessors `getDepthData`/`getRGBData`, as
declared, hand back only payload bytes — no generation, no timestamp. -/
theorem readSnapshot_returns_value_copy (s s' : Slot) (p : List Nat) (w h ts : Nat) :
    (s.readSnapshot.data = s.data ∧
      s.readSnapshot.generation = s.generation ∧
      s.readSnapshot.timestamp = s.lastWriteTimestamp) ∧
    (s.write p w h ts = .ok s' → p ≠ s.data →
      s'.readSnapshot.data = p ∧
      s.readSnapshot.data = s.data ∧
      s'.readSnapshot.data ≠ s.readSnapshot.data) ∧
    (RetComponent.payloadBytes ∈ retComponents (declaredReturn .getDepthData) ∧
      RetComponent.generationField ∉ retComponents (declaredReturn .getRGBData) ∧
      RetComponent.timestampField ∉ retComponents (declaredReturn .getRGBData)) := by
  refine ⟨⟨rfl, rfl, rfl⟩, ?_, by decide⟩
  intro hok hne
  have hs := Slot.write_ok_elim s s' p w h ts hok
  subst hs
  exact ⟨rfl, rfl, hne⟩

/-- C1 witness: writing [9, 9] over a slot holding [5, 6] leaves a
previously taken snapshot at the old bytes while the new slot state
reads back the new ones. -/
theorem readSnapshot_returns_value_copy_witness :
    (Slot.readSnapshot ⟨1, 1, .Depth16, [9, 9], 2, 8⟩).data = [9, 9] ∧
    (Slot.readSnapshot ⟨1, 1, .Depth16, [5, 6], 1, 7⟩).data = [5, 6] ∧
    (Slot.readSnapshot ⟨1, 1, .Depth16, [9, 9], 2, 8⟩).data ≠
      (Slot.readSnapshot ⟨1, 1, .Depth16, [5, 6], 1, 7⟩).data :=
  (readSnapshot_returns_value_copy ⟨1, 1, .Depth16, [5, 6], 1, 7⟩
    ⟨1, 1, .Depth16, [9, 9], 2, 8⟩ [9, 9] 1 1 8).2.1 rfl (by decide)

theorem relayInv_init (pf : Nat → List Nat) (w h : Nat) (st : SampleStride)
    (n : Nat) : RelayInv pf (initSys pf w h st n) := by
  refine ⟨?_, ?_, ?_, ?_, ?_⟩
  · intro hne
    exact absurd rfl hne
  · intro hw
    exact nomatch hw
  · intro _
    rfl
  · intro i r hri hpc
    simp only [initSys] at hri
    rw [List.getElem?_replicate] at hri
    split at hri
    · cases Option.some.inj hri
      exact nomatch hpc
    · exact nomatch hri
  · intro i r hri sn hsn
    simp only [initSys] at hri
    rw [List.getElem?_replicate] at hri
    split at hri
    · cases Option.some.inj hri
      exact absurd hsn (List.not_mem_nil sn)
    · exact nomatch hri

theorem relayInv_step (pf : Nat → List Nat) (tf : Nat → Nat) (s s' : RelaySys)
    (hstep : RelayStep pf tf s s') (hinv : RelayInv pf s) : RelayInv pf s' := by
  obtain ⟨h1, h2, h3, h4, h5⟩ := hinv
  cases hstep with
  | wAcquire hl hw =>
    refine ⟨?_, ?_, ?_, ?_, ?_⟩
    · intro _
      rfl
    · intro hc
      exact nomatch hc
    · intro _
      exact h3 (by rw [hw]; exact fun hc => nomatch hc)
    · intro i r hri hpc
      have hx := h4 i r hri hpc
      rw [hl] at hx
      exact nomatch hx
    · exact h5
  | wData hw =>
    have hlw : s.lock = some .writer := h1 (by rw [hw]; exact fun hc => nomatch hc)
    refine ⟨?_, ?_, ?_, ?_, ?_⟩
    · intro _
      exact hlw
    · intro _
      rfl
    · intro hc
      exact absurd rfl hc
    · intro i r hri hpc
      have hx := h4 i r hri hpc
      rw [hlw] at hx
      exact nomatch (Option.some.inj hx)
    · exact h5
  | wBumpRelease hw =>
    have hlw : s.lock = some .writer := h1 (by rw [hw]; exact fun hc => nomatch hc)
    refine ⟨?_, ?_, ?_, ?_, ?_⟩
    · intro hc
      exact absurd rfl hc
    · intro hc
      exact nomatch hc
    · intro _
      exact h2 hw
    · intro i r hri hpc
      have hx := h4 i r hri hpc
      rw [hlw] at hx
      exact nomatch (Option.some.inj hx)
    · exact h5
  | rAcquire i r hri hpc hl =>
    have hwidle : s.wpc = .idle := by
      by_contra hne
      have hx := h1 hne
      rw [hl] at hx
      exact nomatch hx
    have hilen : i < s.readers.length := (List.getElem?_eq_some.mp hri).1
    refine ⟨?_, ?_, ?_, ?_, ?_⟩
    · intro hc
      exact absurd hwidle hc
    · intro hc
      rw [hwidle] at hc
      exact nomatch hc
    · intro _
      exact h3 (by rw [hwidle]; exact fun hc => nomatch hc)
    · intro j r2 hj hpc2
      by_cases hij : i = j
      · subst hij
        rfl
      · rw [List.getElem?_set_ne hij] at hj
        have hx := h4 j r2 hj hpc2
        rw [hl] at hx
        exact nomatch hx
    · intro j r2 hj sn hsn
      by_cases hij : i = j
      · subst hij
        rw [List.getElem?_set_eq_of_lt _ hilen] at hj
        cases Option.some.inj hj
        exact h5 i r hri sn hsn
      · rw [List.getElem?_set_ne hij] at hj
        exact h5 j r2 hj sn hsn
  | rReadRelease i r hri hpc =>
    have hlock : s.lock = some (.reader i) := h4 i r hri hpc
    have hwidle : s.wpc = .idle := by
      by_contra hne
      have hx := h1 hne
      rw [hlock] at hx
      exact nomatch (Option.some.inj hx)
    have hcons : s.slot.data = pf s.slot.generation :=
      h3 (by rw [hwidle]; exact fun hc => nomatch hc)
    have hilen : i < s.readers.length := (List.getElem?_eq_some.mp hri).1
    refine ⟨?_, ?_, ?_, ?_, ?_⟩
    · intro hc
      exact absurd hwidle hc
    · intro hc
      rw [hwidle] at hc
      exact nomatch hc
    · intro _
      exact hcons
    · intro j r2 hj hpc2
      by_cases hij : i = j
      · subst hij
        rw [List.getElem?_set_eq_of_lt _ hilen] at hj
        cases Option.some.inj hj
        exact nomatch hpc2
      · rw [List.getElem?_set_ne hij] at hj
        have hx := h4 j r2 hj hpc2
        rw [hlock] at hx
        exact absurd (Owner.reader.inj (Option.some.inj hx)) hij
    · intro j r2 hj sn hsn
      by_cases hij : i = j
      · subst hij
        rw [List.getElem?_set_eq_of_lt _ hilen] at hj
        cases Option.some.inj hj
        rcases List.mem_cons.mp hsn with hEq | hmem
        · subst hEq
          exact hcons
        · exact h5 i r hri sn hmem
      · rw [List.getElem?_set_ne hij] at hj
        exact h5 j r2 hj sn hsn
  | rRestart i r hri hpc =>
    have hilen : i < s.readers.length := (List.getElem?_eq_some.mp hri).1
    refine ⟨h1, h2, h3, ?_, ?_⟩
    · intro j r2 hj hpc2
      by_cases hij : i = j
      · subst hij
        rw [List.getElem?_set_eq_of_lt _ hilen] at hj
        cases Option.some.inj hj
        exact nomatch hpc2
      · rw [List.getElem?_set_ne hij] at hj
        exact h4 j r2 hj hpc2
    · intro j r2 hj sn hsn
      by_cases hij : i = j
      · subst hij
        rw [List.getElem?_set_eq_of_lt _ hilen] at hj
        cases Option.some.inj hj
        exact h5 i r hri sn hsn
      · rw [List.getElem?_set_ne hij] at hj
        exact h5 j r2 hj sn hsn

theorem relayInv_reachable (pf : Nat → List Nat) (tf : Nat → Nat) (w h : Nat)
    (st : SampleStride) (n : Nat) (s : RelaySys)
    (hreach : Relation.ReflTransGen (RelayStep pf tf) (initSys pf w h st n) s) :
    RelayInv pf s := by
  induction hreach with
  | refl => exact relayInv_init pf w h st n
  | tail hsteps hstep ih => exact relayInv_step pf tf _ _ hstep ih

/-- C2: for every number of reader threads fetching concurrently with
the single writer publishing in a loop, in every reachable interleaving
no reader ever observes the slot mid-write — every snapshot a completed
fetch returned is exactly the full frame published as its generation
(`pf sn.generation`), so its bytes are consistent with its generation
and, in particular, have that frame's byte length; the per-slot guard
(acquisitions only when free, coupled to the program counters) is what
rules the torn window out. -/
theorem fetch_never_observes_torn_frame (pf : Nat → List Nat) (tf : Nat → Nat)
    (w h : Nat) (st : SampleStride) (n : Nat) (s : RelaySys)
    (hreach : Relation.ReflTransGen (RelayStep pf tf) (initSys pf w h st n) s)
    (i : Nat) (r : ReaderState) (hr : s.readers[i]? = some r)
    (sn : Snapshot) (hsn : sn ∈ r.snaps) :
    sn.data = pf sn.generation :=
  (relayInv_reachable pf tf w h st n s hreach).2.2.2.2 i r hr sn hsn

/-- Frame payloads used by the C2 witness run: generation `g` is the
two-byte frame [g, g]. -/
def pfTwoBytes : Nat → List Nat := fun g => [g, g]

/-- Timestamps used by the C2 witness run. -/
def tfZero : Nat → Nat := fun _ => 0

/-- State 0 of the C2 witness run: the initial system with one reader. -/
def c2run0 : RelaySys :=
  initSys pfTwoBytes 1 1 .Depth16 1

/-- State 1: the writer has acquired the guard. -/
def c2run1 : RelaySys :=
  { c2run0 with lock := some .writer, wpc := .locked }

/-- State 2: the writer has installed the payload bytes of generation 1
but not yet bumped the generation — the torn window. -/
def c2run2 : RelaySys :=
  { c2run1 with slot := { c2run1.slot with data := [1, 1] }, wpc := .dataWritten }

/-- State 3: the writer has bumped the generation and released the
guard. -/
def c2run3 : RelaySys :=
  { c2run2 with
    slot := { c2run2.slot with generation := 1, lastWriteTimestamp := 0 }
    lock := none
    wpc := .idle }

/-- State 4: reader 0 has acquired the guard. -/
def c2run4 : RelaySys :=
  { c2run3 with
    lock := some (.reader 0)
    readers := [{ pc := .locked, snaps := [] }] }

/-- State 5: reader 0 has copied its snapshot and released the guard. -/
def c2run5 : RelaySys :=
  { c2run4 with
    lock := none
    readers := [{ pc := .done, snaps := [{ data := [1, 1], generation := 1, timestamp := 0 }] }] }

/-- C2 witness: along the concrete six-state run (writer publishes one
frame, then reader 0 fetches), the snapshot reader 0 recorded is the
full frame of its generation. -/
theorem fetch_never_observes_torn_frame_witness :
    ([1, 1] : List Nat) = pfTwoBytes 1 := by
  refine fetch_never_observes_torn_frame pfTwoBytes tfZero 1 1 .Depth16 1 c2run5 ?_ 0
    { pc := .done, snaps := [{ data := [1, 1], generation := 1, timestamp := 0 }] } rfl
    { data := [1, 1], generation := 1, timestamp := 0 } ?_
  · exact Relation.ReflTransGen.tail
      (Relation.ReflTransGen.tail
        (Relation.ReflTransGen.tail
          (Relation.ReflTransGen.tail
            (Relation.ReflTransGen.tail Relation.ReflTransGen.refl
              (RelayStep.wAcquire c2run0 rfl rfl))
            (RelayStep.wData c2run1 rfl))
          (RelayStep.wBumpRelease c2run2 rfl))
        (RelayStep.rAcquire c2run3 0 { pc := .idle, snaps := [] } rfl rfl rfl))
      (RelayStep.rReadRelease c2run4 0 { pc := .locked, snaps := [] } rfl rfl)
  · exact List.mem_cons_self _ _

end KinectSdk
